import Mathlib

/-!
Verification of the counterpoint-mvp dashboard core against its design
specification.  We shallowly embed the pure logic of `Dashboard.py`
(`parse_gemini_to_html`'s scanning pass, `get_x_intel`'s response
post-processing, `get_live_news`'s two-tier search policy) and of
`utils.py` (`save_search` / `load_history`), modelling strings as
`List Char` and external services as explicit inputs.
-/

namespace Counterpoint

/-! ### Python string primitives, modelled over `List Char` -/

/-- Characters treated as whitespace by Python's `str.strip()` (ASCII part). -/
def pyWS (c : Char) : Bool :=
  c = ' ' || c = '\t' || c = '\n' || c = '\r' || c = '\x0b' || c = '\x0c'

/-- Right-strip of Python-whitespace characters. -/
def rstripWS : List Char → List Char
  | [] => []
  | c :: rest =>
    let r := rstripWS rest
    if r.isEmpty && pyWS c then [] else c :: r

/-- Python `s.strip()`: drop whitespace from both ends. -/
def pyStrip (s : List Char) : List Char :=
  rstripWS (s.dropWhile pyWS)

/-- Python `s.startswith(p)`. -/
def startsWithStr : List Char → List Char → Bool
  | [], _ => true
  | _ :: _, [] => false
  | a :: ps, b :: ss => a = b && startsWithStr ps ss

/-- Python `needle in hay` (substring containment). -/
def containsStr (hay needle : List Char) : Bool :=
  startsWithStr needle hay ||
    match hay with
    | [] => false
    | _ :: t => containsStr t needle

/-- Python `s.upper()` (ASCII part). -/
def upperStr (s : List Char) : List Char :=
  s.map Char.toUpper

/-- Fuel-indexed helper for `removeAllOcc`; the fuel (at least the length
of the string, each step consuming at least one character for non-empty
patterns) only makes the recursion structural. -/
def removeAllOccAux (pat : List Char) : Nat → List Char → List Char
  | 0, _ => []
  | _, [] => []
  | fuel + 1, c :: rest =>
    if startsWithStr pat (c :: rest) then
      removeAllOccAux pat fuel (rest.drop (pat.length - 1))
    else
      c :: removeAllOccAux pat fuel rest

/-- Python `s.replace(pat, '')` for a non-empty pattern: remove every
(non-overlapping, leftmost-first) occurrence of `pat`. -/
def removeAllOcc (pat : List Char) (s : List Char) : List Char :=
  removeAllOccAux pat s.length s

/-- Python `s.split('\n')`. -/
def splitLines : List Char → List (List Char)
  | [] => [[]]
  | c :: rest =>
    if c = '\n' then [] :: splitLines rest
    else
      match splitLines rest with
      | [] => [[c]]
      | l :: ls => (c :: l) :: ls

/-- Take characters up to (excluding) the first occurrence of `tok`. -/
def takeUntilTok (tok : List Char) : List Char → List Char
  | [] => []
  | c :: rest =>
    if startsWithStr tok (c :: rest) then [] else c :: takeUntilTok tok rest

/-! ### Report Normalizer: the scanning pass of `parse_gemini_to_html`
(`src/Dashboard.py`, lines 169-203) -/

/-- The "current section" state of the line scanner
(`current_section` in `parse_gemini_to_html`; Python uses
`None | 'findings' | 'unverified' | 'summary'`). -/
inductive Sect where
  | noneSect
  | findings
  | unverified
  | summary
deriving DecidableEq, Repr

/-- The accumulator of the scanning loop of `parse_gemini_to_html`:
`confidence`, `key_findings`, `unverified`, `summary`, `current_section`. -/
structure ScanState where
  confidence : List Char
  key_findings : List (List Char)
  unverified : List (List Char)
  summary : List Char
  current_section : Sect
deriving DecidableEq, Repr

/-- Initial accumulator (`confidence = "N/A"`, empty lists, empty summary,
no section). -/
def initScan : ScanState :=
  { confidence := "N/A".data, key_findings := [], unverified := [],
    summary := [], current_section := Sect.noneSect }

def confMarker : List Char := "CONFIDENCE:".data

def kfMarker : List Char := "KEY FINDINGS".data

def unvMarker : List Char := "UNVERIFIED".data

def sumMarker : List Char := "SUMMARY".data

/-- `line.replace('CONFIDENCE:', '').strip().replace('%', '')`
(Dashboard.py line 188). -/
def confValue (line : List Char) : List Char :=
  (pyStrip (removeAllOcc confMarker line)).filter (fun c => c ≠ '%')

/-- `line.startswith('•') or line.startswith('-') or line.startswith('*')`
(Dashboard.py line 195). -/
def isBulletLine (line : List Char) : Bool :=
  startsWithStr "•".data line || startsWithStr "-".data line ||
    startsWithStr "*".data line

/-- Characters removed by `line.lstrip('•-* ')` (Dashboard.py line 196). -/
def isBulletChar (c : Char) : Bool :=
  c = '•' || c = '-' || c = '*' || c = ' '

/-- `line.lstrip('•-* ').strip()` (Dashboard.py line 196). -/
def bulletText (line : List Char) : List Char :=
  pyStrip (line.dropWhile isBulletChar)

/-- One iteration of the scanning loop of `parse_gemini_to_html`
(Dashboard.py lines 181-202): strip the line, skip it when empty, then in
order test the `CONFIDENCE:` literal head, the three upper-cased header
substrings, the bullet glyphs, and otherwise accumulate summary text. -/
def parseStep (st : ScanState) (rawLine : List Char) : ScanState :=
  let line := pyStrip rawLine
  if line.isEmpty then st
  else if startsWithStr confMarker line then
    { st with confidence := confValue line }
  else if containsStr (upperStr line) kfMarker then
    { st with current_section := Sect.findings }
  else if containsStr (upperStr line) unvMarker then
    { st with current_section := Sect.unverified }
  else if containsStr (upperStr line) sumMarker then
    { st with current_section := Sect.summary }
  else if isBulletLine line then
    match st.current_section with
    | Sect.findings => { st with key_findings := st.key_findings ++ [bulletText line] }
    | Sect.unverified => { st with unverified := st.unverified ++ [bulletText line] }
    | _ => st
  else if st.current_section = Sect.summary then
    { st with summary := st.summary ++ line ++ [' '] }
  else st

/-- The whole scanning pass of `parse_gemini_to_html`: split the raw
response on newlines and fold the per-line step over the lines. -/
def parse_gemini_scan (raw : List Char) : ScanState :=
  (splitLines raw).foldl parseStep initScan

/-- Final trimming of the accumulated summary (`summary.strip()`,
Dashboard.py line 247). -/
def summary_final (st : ScanState) : List Char :=
  pyStrip st.summary

/-- The placeholder used when the trimmed summary is empty
(Dashboard.py line 247). -/
def summaryPlaceholder : List Char :=
  "Analysis complete. See findings above for details.".data

/-- `summary.strip() if summary.strip() else <placeholder>`
(Dashboard.py line 247). -/
def rendered_summary (st : ScanState) : List Char :=
  if (summary_final st).isEmpty then summaryPlaceholder else summary_final st

/-! ### History Store (`src/utils.py`) -/

/-- One persisted history record (`new_entry` in `save_search`,
utils.py lines 13-19).  `confidence_score` and `x_intel_data` are
dynamically typed in Python, so they are type parameters here. -/
structure HistoryEntry (α β : Type) where
  timestamp : String
  topic : String
  confidence_score : α
  report_html : String
  x_intel_data : β
deriving DecidableEq, Repr

/-- State of the `history.json` store file: absent, present but
unreadable/unparseable, or holding a list of entries. -/
inductive Store (α β : Type) where
  | missing
  | corrupt
  | good (entries : List (HistoryEntry α β))
deriving DecidableEq, Repr

/-- `load_history` (utils.py lines 31-42): a missing file yields `[]`;
any exception while reading/parsing yields `[]`; otherwise the parsed
entries. -/
def load_history {α β : Type} : Store α β → List (HistoryEntry α β)
  | Store.missing => []
  | Store.corrupt => []
  | Store.good es => es

/-- `save_search` (utils.py lines 7-29): build the new entry with the
wall-clock timestamp, load the existing history, insert the entry at
position 0, and rewrite the whole store.  The timestamp is passed in
explicitly (`datetime.now()` at the call). -/
def save_search {α β : Type} (now : String) (topic : String)
    (confidence_score : α) (report_html : String) (x_intel_data : β)
    (store : Store α β) : Store α β :=
  Store.good
    ({ timestamp := now, topic := topic, confidence_score := confidence_score,
       report_html := report_html, x_intel_data := x_intel_data } ::
      load_history store)

/-! ### Social-Signal Fetcher: `get_x_intel` (`src/Dashboard.py`,
lines 37-80).  The chat-completion transport and `json.loads` are
external collaborators, passed in as explicit inputs. -/

/-- Shape of the value `get_x_intel` returns: the parsed JSON object, an
error dict carrying the raw text (`{"error":…, "raw": content}`), or an
error dict alone (`{"error":…}`). -/
inductive IntelResult (J : Type) where
  | parsed (v : J)
  | errRaw (msg : String) (raw : List Char)
  | errOnly (msg : String)
deriving DecidableEq, Repr

/-- Response post-processing of `get_x_intel` (Dashboard.py lines 68-74):
strip the text; if it starts with a triple-backtick fence take the fenced
body (`content.split("```")[1]`) and drop a leading `json` tag; strip
again.  The result is what is handed to `json.loads` — and what the
except-branch stores under `"raw"`. -/
def postprocessContent (text : List Char) : List Char :=
  let content := pyStrip text
  let content :=
    if startsWithStr "```".data content then
      let inner := takeUntilTok "```".data (content.drop 3)
      if startsWithStr "json".data inner then inner.drop 4 else inner
    else content
  pyStrip content

/-- `get_x_intel` (Dashboard.py lines 37-80): no API key yields a
configuration error; a transport failure yields an error-only result; a
response text is post-processed and fed to the JSON parser, a parse
failure yielding `{error, raw: content}` with the post-processed content. -/
def get_x_intel (J : Type) (jsonLoads : List Char → Option J)
    (apiKey : Option String) (call : Except String (List Char)) :
    IntelResult J :=
  match apiKey with
  | none => IntelResult.errOnly "XAI_API_KEY not configured"
  | some _ =>
    match call with
    | Except.error e => IntelResult.errOnly ("Error calling Grok API: " ++ e)
    | Except.ok text =>
      let content := postprocessContent text
      match jsonLoads content with
      | some v => IntelResult.parsed v
      | none => IntelResult.errRaw "Failed to parse Grok response" content

/-! ### Evidence Fetcher: `get_live_news` (`src/Dashboard.py`,
lines 82-126).  The web-search provider is an oracle from requests to
result lists; the fetcher also returns the trace of requests it issued. -/

/-- A search request as built by `get_live_news`: query, depth, result
bound, and the optional recency filter (`time_range="year"`). -/
structure SearchReq where
  query : String
  search_depth : String
  max_results : Nat
  time_range : Option String
deriving DecidableEq, Repr

/-- One raw provider result: the `.get("url"/"content"/"title")` fields,
each possibly absent. -/
structure RawResult where
  url : Option String
  content : Option String
  title : Option String
deriving DecidableEq, Repr

/-- One element of `news_data` (Dashboard.py lines 101-105 / 117-121). -/
structure NewsItem where
  url : Option String
  content : Option String
  title : Option String
deriving DecidableEq, Repr

/-- The loop `for result in response.get("results", []): news_data.append({…})`. -/
def extractNews (results : List RawResult) : List NewsItem :=
  results.map (fun r => { url := r.url, content := r.content, title := r.title })

/-- The recency-scoped request (Dashboard.py lines 92-98). -/
def scopedReq (topic : String) : SearchReq :=
  { query := topic, search_depth := "advanced", max_results := 10,
    time_range := some "year" }

/-- The unscoped fallback request (Dashboard.py lines 109-114). -/
def unscopedReq (topic : String) : SearchReq :=
  { query := topic, search_depth := "advanced", max_results := 10,
    time_range := none }

/-- `get_live_news` (Dashboard.py lines 82-126): with no API key the
function returns the distinguished "unavailable" result (`None`);
otherwise it issues the recency-scoped search, and when that yields fewer
than 3 items it issues the unscoped search and returns its extraction in
place of the first.  The second component records the requests issued, in
order. -/
def get_live_news (oracle : SearchReq → List RawResult)
    (apiKey : Option String) (topic : String) :
    Option (List NewsItem) × List SearchReq :=
  match apiKey with
  | none => (none, [])
  | some _ =>
    let news1 := extractNews (oracle (scopedReq topic))
    if news1.length < 3 then
      (some (extractNews (oracle (unscopedReq topic))),
        [scopedReq topic, unscopedReq topic])
    else
      (some news1, [scopedReq topic])

/-! ### Theorems about the claims -/

/-- Claim C1: on the raw text of end-to-end scenario A, the scanning pass
of `parse_gemini_to_html` produces confidence "85", key findings
["Fact one", "Fact two"], unverified claims ["Rumor one"], and (after the
final trimming) summary "All good.". -/
theorem claim_C1_scenarioA :
    (parse_gemini_scan ("CONFIDENCE: 85%\n\nKEY FINDINGS:\n• Fact one\n• Fact two\n\nUNVERIFIED:\n• Rumor one\n\nSUMMARY:\nAll good.").data).confidence = "85".data ∧
    (parse_gemini_scan ("CONFIDENCE: 85%\n\nKEY FINDINGS:\n• Fact one\n• Fact two\n\nUNVERIFIED:\n• Rumor one\n\nSUMMARY:\nAll good.").data).key_findings = ["Fact one".data, "Fact two".data] ∧
    (parse_gemini_scan ("CONFIDENCE: 85%\n\nKEY FINDINGS:\n• Fact one\n• Fact two\n\nUNVERIFIED:\n• Rumor one\n\nSUMMARY:\nAll good.").data).unverified = ["Rumor one".data] ∧
    summary_final (parse_gemini_scan ("CONFIDENCE: 85%\n\nKEY FINDINGS:\n• Fact one\n• Fact two\n\nUNVERIFIED:\n• Rumor one\n\nSUMMARY:\nAll good.").data) = "All good.".data := by
  refine ⟨?_, ?_, ?_, ?_⟩ <;> rfl

/-- Claim C7: `save_search` followed immediately by `load_history` yields,
at index 0, an entry whose `topic` and `confidence_score` equal the values
passed in — for every store state and every argument. -/
theorem claim_C7_append_then_load (α β : Type) (now topic : String)
    (conf : α) (rep : String) (x : β) (st : Store α β) :
    (load_history (save_search now topic conf rep x st)).head? =
      some { timestamp := now, topic := topic, confidence_score := conf,
             report_html := rep, x_intel_data := x } := rfl

/-- Claim C8: every `save_search` inserts the new entry at position 0 and
keeps every previously stored entry, shifted up by one; appending topics
"A", "B", "C" in that order makes `load_history` list topics
["C", "B", "A"]. -/
theorem claim_C8_insert_at_zero :
    (∀ (α β : Type) (now topic : String) (conf : α) (rep : String) (x : β)
        (st : Store α β),
      load_history (save_search now topic conf rep x st) =
        { timestamp := now, topic := topic, confidence_score := conf,
          report_html := rep, x_intel_data := x } :: load_history st) ∧
    (load_history (save_search "t3" "C" (0 : Nat) "" (0 : Nat)
        (save_search "t2" "B" 0 "" 0 (save_search "t1" "A" 0 "" 0
          Store.missing)))).map HistoryEntry.topic = ["C", "B", "A"] :=
  ⟨fun _ _ _ _ _ _ _ _ => rfl, rfl⟩

/-- Claim C9: `load_history` never raises: a missing store file yields the
empty list, and an unreadable or unparseable store file also yields the
empty list (the embedding is a total function, mirroring the
catch-all `except`). -/
theorem claim_C9_load_never_raises (α β : Type) :
    load_history (Store.missing : Store α β) = [] ∧
    load_history (Store.corrupt : Store α β) = [] :=
  ⟨rfl, rfl⟩

/-- Claim C4: when the recency-scoped search returns fewer than 3 results,
`get_live_news` issues the unscoped search and returns exactly its
extraction (not merged with the first); when it returns 3 or more, only
the scoped request is issued and its extraction is returned. -/
theorem claim_C4_fallback (oracle : SearchReq → List RawResult)
    (k topic : String) :
    ((oracle (scopedReq topic)).length < 3 →
      get_live_news oracle (some k) topic =
        (some (extractNews (oracle (unscopedReq topic))),
          [scopedReq topic, unscopedReq topic])) ∧
    (3 ≤ (oracle (scopedReq topic)).length →
      get_live_news oracle (some k) topic =
        (some (extractNews (oracle (scopedReq topic))), [scopedReq topic])) := by
  constructor
  · intro h
    have h' : (extractNews (oracle (scopedReq topic))).length < 3 := by
      simpa [extractNews] using h
    simp [get_live_news, h']
  · intro h
    have h' : ¬ (extractNews (oracle (scopedReq topic))).length < 3 := by
      simp [extractNews]; omega
    simp [get_live_news, h']

/-- A concrete search oracle: the scoped search for topic "few" returns a
single result, every other search returns three. -/
def newsOracle : SearchReq → List RawResult := fun req =>
  if req.query = "few" && req.time_range = some "year" then
    [{ url := some "u0", content := some "c0", title := some "t0" }]
  else
    [{ url := some "u1", content := some "c1", title := some "t1" },
     { url := some "u2", content := some "c2", title := some "t2" },
     { url := some "u3", content := some "c3", title := some "t3" }]

/-- Concrete witness for claim C4: with `newsOracle`, topic "few" takes
the fallback branch and topic "many" does not. -/
theorem claim_C4_fallback_witness :
    (newsOracle (scopedReq "few")).length < 3 ∧
    get_live_news newsOracle (some "k") "few" =
      (some (extractNews (newsOracle (unscopedReq "few"))),
        [scopedReq "few", unscopedReq "few"]) ∧
    3 ≤ (newsOracle (scopedReq "many")).length ∧
    get_live_news newsOracle (some "k") "many" =
      (some (extractNews (newsOracle (scopedReq "many"))), [scopedReq "many"]) :=
  ⟨by decide, (claim_C4_fallback newsOracle "k" "few").1 (by decide),
   by decide, (claim_C4_fallback newsOracle "k" "many").2 (by decide)⟩

/-- Counterexample to claim C2: in the raw text
"KEY FINDINGS:\n• Alpha\n• use SUMMARY now\n• Beta", the bullet line
containing "SUMMARY" DOES switch the section state to summary (so the
claimed findings list ["Alpha", "use SUMMARY now", "Beta"] is not
produced: only "Alpha" is kept and "Beta" is dropped). -/
theorem claim_C2_counterexample :
    (parse_gemini_scan "KEY FINDINGS:\n• Alpha\n• use SUMMARY now\n• Beta".data).key_findings =
      ["Alpha".data] ∧
    (parse_gemini_scan "KEY FINDINGS:\n• Alpha\n• use SUMMARY now\n• Beta".data).current_section =
      Sect.summary := by
  exact ⟨rfl, rfl⟩

/-- Claim C2 as amended: the header-substring checks run before the
bullet-prefix check, so every non-empty line that does not start with
`CONFIDENCE:` and whose upper-cased form contains "SUMMARY" (but no
earlier header substring) switches the section state to summary — whether
or not it is a bullet line — and nothing is appended to any list. -/
theorem claim_C2_amended (st : ScanState) (l : List Char)
    (h1 : (pyStrip l).isEmpty = false)
    (h2 : startsWithStr confMarker (pyStrip l) = false)
    (h3 : containsStr (upperStr (pyStrip l)) kfMarker = false)
    (h4 : containsStr (upperStr (pyStrip l)) unvMarker = false)
    (h5 : containsStr (upperStr (pyStrip l)) sumMarker = true) :
    parseStep st l = { st with current_section := Sect.summary } := by
  simp [parseStep, h1, h2, h3, h4, h5]

/-- Concrete witness for the amended claim C2: the bullet line
"• note the SUMMARY here" satisfies all the hypotheses and switches a
findings-state scanner to summary without appending anything. -/
theorem claim_C2_amended_witness :
    (pyStrip "• note the SUMMARY here".data).isEmpty = false ∧
    startsWithStr confMarker (pyStrip "• note the SUMMARY here".data) = false ∧
    containsStr (upperStr (pyStrip "• note the SUMMARY here".data)) kfMarker = false ∧
    containsStr (upperStr (pyStrip "• note the SUMMARY here".data)) unvMarker = false ∧
    containsStr (upperStr (pyStrip "• note the SUMMARY here".data)) sumMarker = true ∧
    parseStep { initScan with current_section := Sect.findings }
        "• note the SUMMARY here".data =
      { initScan with current_section := Sect.summary } :=
  ⟨by decide, by decide, by decide, by decide, by decide,
    claim_C2_amended { initScan with current_section := Sect.findings } _
      (by decide) (by decide) (by decide) (by decide) (by decide)⟩

/-- Counterexample to claim C3: for the response text " not json " the
parse-failure result carries `raw = "not json"` — the post-processed
(stripped) content — which differs from the original response text. -/
theorem claim_C3_counterexample :
    get_x_intel Unit (fun _ => none) (some "k") (Except.ok " not json ".data) =
      IntelResult.errRaw "Failed to parse Grok response" "not json".data ∧
    "not json".data ≠ " not json ".data :=
  ⟨rfl, by decide⟩

/-- Claim C3 as amended: `get_x_intel` never raises; a missing API key or
a transport failure yields an error-only result (no raw field); a JSON
parse failure yields an error result whose `raw` equals the
POST-PROCESSED content (stripped, code-fence removed) — not the original
response text; a successful parse yields the parsed value. -/
theorem claim_C3_amended (J : Type) (p : List Char → Option J)
    (k e : String) (text : List Char) :
    get_x_intel J p none (Except.ok text) =
      IntelResult.errOnly "XAI_API_KEY not configured" ∧
    get_x_intel J p (some k) (Except.error e) =
      IntelResult.errOnly ("Error calling Grok API: " ++ e) ∧
    (p (postprocessContent text) = none →
      get_x_intel J p (some k) (Except.ok text) =
        IntelResult.errRaw "Failed to parse Grok response"
          (postprocessContent text)) ∧
    (∀ v, p (postprocessContent text) = some v →
      get_x_intel J p (some k) (Except.ok text) = IntelResult.parsed v) := by
  refine ⟨rfl, rfl, ?_, ?_⟩
  · intro h
    simp [get_x_intel, h]
  · intro v h
    simp [get_x_intel, h]

/-- Concrete witness for the amended claim C3: a fenced non-JSON response
"```\nnot json\n```" with an always-failing parser yields the error
result whose raw text is the fence-stripped content. -/
theorem claim_C3_amended_witness :
    (fun _ => (none : Option Unit)) (postprocessContent "```\nnot json\n```".data) = none ∧
    get_x_intel Unit (fun _ => none) (some "k")
        (Except.ok "```\nnot json\n```".data) =
      IntelResult.errRaw "Failed to parse Grok response"
        (postprocessContent "```\nnot json\n```".data) :=
  ⟨rfl,
    (claim_C3_amended Unit (fun _ => none) "k" "e" "```\nnot json\n```".data).2.2.1 rfl⟩

/-- Claim C5: the report always has a summary: when the scan's trimmed
summary is empty the rendered summary is the fixed placeholder, and the
rendered summary is never empty. -/
theorem claim_C5_summary_default (raw : List Char) :
    (summary_final (parse_gemini_scan raw) = [] →
      rendered_summary (parse_gemini_scan raw) = summaryPlaceholder) ∧
    rendered_summary (parse_gemini_scan raw) ≠ [] := by
  constructor
  · intro h
    simp [rendered_summary, h]
  · unfold rendered_summary
    split
    · decide
    · rename_i h
      simpa using h

/-- Concrete witness for claim C5: the empty raw text yields no summary
content, and its rendered summary is the placeholder. -/
theorem claim_C5_summary_default_witness :
    summary_final (parse_gemini_scan "".data) = [] ∧
    rendered_summary (parse_gemini_scan "".data) = summaryPlaceholder :=
  ⟨rfl, (claim_C5_summary_default "".data).1 rfl⟩

/-- Counterexample to claim C6: the raw text "CONFIDENCE: banana" makes
the scanner store the literal "banana" as confidence — a value that is
neither the sentinel "N/A" nor a digit string (hence not an integer in
0-100). -/
theorem claim_C6_counterexample :
    (parse_gemini_scan "CONFIDENCE: banana".data).confidence = "banana".data ∧
    "banana".data ≠ "N/A".data ∧
    ("banana".data.all Char.isDigit) = false :=
  ⟨rfl, by decide, by decide⟩

/-- One scan step either leaves the confidence unchanged or, when the
stripped line starts with `CONFIDENCE:`, sets it to the literal transform
of that line. -/
theorem parseStep_conf (st : ScanState) (l : List Char) :
    (parseStep st l).confidence = st.confidence ∨
      (startsWithStr confMarker (pyStrip l) = true ∧
        (parseStep st l).confidence = confValue (pyStrip l)) := by
  simp only [parseStep]
  repeat' split
  all_goals
    first
      | exact Or.inl rfl
      | (rename_i h; exact Or.inr ⟨h, rfl⟩)

/-- Folding the scan over a list of lines either leaves the confidence
unchanged or takes it from some line that starts with `CONFIDENCE:`. -/
theorem foldl_conf (lines : List (List Char)) :
    ∀ st : ScanState,
      (lines.foldl parseStep st).confidence = st.confidence ∨
        ∃ l ∈ lines, startsWithStr confMarker (pyStrip l) = true ∧
          (lines.foldl parseStep st).confidence = confValue (pyStrip l) := by
  induction lines with
  | nil => intro st; exact Or.inl rfl
  | cons l ls ih =>
    intro st
    rw [List.foldl_cons]
    rcases ih (parseStep st l) with h | ⟨l', hl', hm, he⟩
    · rcases parseStep_conf st l with h2 | ⟨hm, he⟩
      · exact Or.inl (h.trans h2)
      · exact Or.inr ⟨l, List.mem_cons_self _ _, hm, h.trans he⟩
    · exact Or.inr ⟨l', List.mem_cons_of_mem _ hl', hm, he⟩

/-- Claim C6 as amended: the confidence the scanner produces is either
the sentinel "N/A" (when no line starts with `CONFIDENCE:`) or the
literal remainder of such a line after trimming and `%`-removal, stored
without any numeric or range validation. -/
theorem claim_C6_amended (raw : List Char) :
    (parse_gemini_scan raw).confidence = "N/A".data ∨
      ∃ l ∈ splitLines raw, startsWithStr confMarker (pyStrip l) = true ∧
        (parse_gemini_scan raw).confidence = confValue (pyStrip l) := by
  simpa [parse_gemini_scan, initScan] using foldl_conf (splitLines raw) initScan

/-- Counterexample to claim C10: the bullet line "-<tab>- hello" (a tab
interrupting the leading run of bullet characters) is appended as
"- hello", which begins with the dash character. -/
theorem claim_C10_counterexample :
    (parse_gemini_scan "KEY FINDINGS:\n-\t- hello".data).key_findings =
      ["- hello".data] ∧
    startsWithStr "-".data "- hello".data = true :=
  ⟨rfl, by decide⟩

/-- The head of a right-stripped list is the head of the list. -/
theorem head_rstripWS (t : List Char) (c : Char)
    (h : (rstripWS t).head? = some c) : t.head? = some c := by
  cases t with
  | nil => simp [rstripWS] at h
  | cons a rest =>
    simp only [rstripWS] at h
    split at h
    · simp at h
    · simp only [List.head?_cons, Option.some.injEq] at h
      simp [h]

/-- The head of `dropWhile p s` never satisfies `p`. -/
theorem head_dropWhileFalse (p : Char → Bool) (s : List Char) (c : Char)
    (h : (s.dropWhile p).head? = some c) : p c = false := by
  induction s with
  | nil => simp [List.dropWhile] at h
  | cons a rest ih =>
    rw [List.dropWhile_cons] at h
    split at h
    · exact ih h
    · rename_i hp
      simp only [List.head?_cons, Option.some.injEq] at h
      subst h
      simpa using hp

/-- A Python-stripped string never begins with a whitespace character. -/
theorem pyStrip_head (s : List Char) (c : Char)
    (h : (pyStrip s).head? = some c) : pyWS c = false :=
  head_dropWhileFalse pyWS s c (head_rstripWS _ c h)

/-- Invariant: every accumulated finding or unverified claim begins with
a non-whitespace character. -/
def headsOK (st : ScanState) : Prop :=
  ∀ s ∈ st.key_findings ++ st.unverified, ∀ c, s.head? = some c →
    pyWS c = false

/-- A stripped bullet's text begins with a non-whitespace character. -/
theorem bulletText_head (l : List Char) (c : Char)
    (h : (bulletText l).head? = some c) : pyWS c = false :=
  pyStrip_head _ c h

/-- One scan step preserves the head invariant: the only strings it adds
are stripped bullet texts. -/
theorem parseStep_headsOK (st : ScanState) (l : List Char)
    (h : headsOK st) : headsOK (parseStep st l) := by
  simp only [parseStep]
  repeat' split
  all_goals
    first
      | exact h
      | (intro s hs c hc
         simp only [List.mem_append, List.mem_singleton] at hs
         have key : s ∈ st.key_findings ++ st.unverified ∨
             s = bulletText (pyStrip l) := by
           simp only [List.mem_append]
           tauto
         rcases key with hk | hk
         · exact h s hk c hc
         · subst hk
           exact bulletText_head _ c hc)

/-- The head invariant is preserved by the whole fold. -/
theorem foldl_headsOK (lines : List (List Char)) :
    ∀ st : ScanState, headsOK st → headsOK (lines.foldl parseStep st) := by
  induction lines with
  | nil => intro st h; exact h
  | cons l ls ih =>
    intro st h
    rw [List.foldl_cons]
    exact ih _ (parseStep_headsOK st l h)

/-- Claim C10 as amended: every string the scanner appends to
`key_findings` or `unverified` begins with a non-whitespace character (in
particular never with a space); the stripping removes the maximal leading
run of bullet characters and spaces, so "• -5 degrees expected" yields
"5 degrees expected" — but a bullet character can survive at the front
when another whitespace character (such as a tab) interrupts that run. -/
theorem claim_C10_amended :
    (∀ raw s,
      s ∈ (parse_gemini_scan raw).key_findings ++
            (parse_gemini_scan raw).unverified →
      ∀ c, s.head? = some c → pyWS c = false) ∧
    (parse_gemini_scan "KEY FINDINGS:\n• -5 degrees expected".data).key_findings =
      ["5 degrees expected".data] := by
  constructor
  · intro raw s hs c hc
    have hinit : headsOK initScan := by
      intro s hs
      simp [initScan] at hs
    exact foldl_headsOK (splitLines raw) initScan hinit s hs c hc
  · rfl

/-- Concrete witness for the amended claim C10: the single appended
finding of "KEY FINDINGS:\n• x" is a member of the accumulated lists and
its head "x" is not whitespace. -/
theorem claim_C10_amended_witness :
    "x".data ∈ (parse_gemini_scan "KEY FINDINGS:\n• x".data).key_findings ++
        (parse_gemini_scan "KEY FINDINGS:\n• x".data).unverified ∧
    pyWS 'x' = false :=
  ⟨by decide,
    claim_C10_amended.1 "KEY FINDINGS:\n• x".data "x".data (by decide) 'x' rfl⟩

end Counterpoint
